import Mathlib

/-!
Verification of the x402 facilitator (`src/facilitator/X402FacilitatorServer.ts`)
of the AETHER SDK.

The facilitator is shallowly embedded: JavaScript objects parsed from the
payment header become Lean structures with `Option` fields (a missing JSON
field is `none`); JavaScript strict inequality `!==` between possibly-missing
fields becomes decidable inequality on `Option`; JS falsiness of a string is
`none` or `some ""`, of a number `none` or `some 0`.  External effects — the
Solana RPC connection (`getParsedAccountInfo`, `getBlockHeight`,
`sendRawTransaction` + `confirmTransaction`), transaction deserialization
(`Transaction.from`) and signature checking (`verifySignatures`), and the SPL
token helpers of the legacy path — are supplied by an `Env` record of total
functions, so every definition is executable.  Thrown JS exceptions that the
source catches are modelled as `Except String` values.  The facilitator's
instance state (`this.networkId`, `this.seenNonces`, `this.agentWallet`) is an
explicit `FacState`; methods that mutate `this.seenNonces` return the new map.
-/

namespace Aether

/-- `payload.authorization` block of the wire payload
(`{from,to,value,asset,validBefore,nonce}`).  `from` is a Lean keyword, so the
fields are called `fromAddr` and `toAddr`. -/
structure Authorization where
  fromAddr : Option String
  toAddr : Option String
  value : Option String
  asset : Option String
  validBefore : Option Nat
  nonce : Option String
deriving DecidableEq, Repr

/-- `payload.transactionMeta` block (`{blockhash, lastValidBlockHeight}`). -/
structure TransactionMeta where
  blockhash : Option String
  lastValidBlockHeight : Option Nat
deriving DecidableEq, Repr

/-- Inner `payload` object of the wire payload. -/
structure InnerPayload where
  authorization : Option Authorization
  signedTransaction : Option String
  transactionMeta : Option TransactionMeta
deriving DecidableEq, Repr

/-- Decoded payment payload (`JSON.parse(Buffer.from(paymentHeader, 'base64'))`). -/
structure PaymentPayload where
  x402Version : Option Nat
  scheme : Option String
  network : Option String
  payload : Option InnerPayload
deriving DecidableEq, Repr

/-- Caller-supplied `paymentRequirements` argument.  The source accesses
`scheme`, `maxAmountRequired`, `payTo`, `asset` and `maxTimeoutSeconds`; the
`network` field is part of the x402 requirements object and is carried here so
that theorems can speak about it. -/
structure Requirements where
  scheme : Option String
  network : Option String
  maxAmountRequired : Option String
  payTo : Option String
  asset : Option String
  maxTimeoutSeconds : Option Nat
deriving DecidableEq, Repr

/-- Result of `validatePaymentLocally`: `{ isValid, reason? }`. -/
structure ValidationResult where
  isValid : Bool
  reason : Option String
deriving DecidableEq, Repr

/-- Result of `verify`: `{ isValid, invalidReason }`. -/
structure VerifyResult where
  isValid : Bool
  invalidReason : Option String
deriving DecidableEq, Repr

/-- Result of `settle`: `{ success, error, txHash, networkId }`. -/
structure SettlementResult where
  success : Bool
  error : Option String
  txHash : Option String
  networkId : Option String
deriving DecidableEq, Repr

/-- One instruction of a deserialized Solana transaction: its program id, raw
data bytes (Buffer bytes, each in 0..255) and the pubkeys of its account-meta
list (`ix.keys[i].pubkey`). -/
structure SolInstruction where
  programId : String
  data : List Nat
  keys : List String
deriving DecidableEq, Repr

/-- A deserialized Solana transaction.  `signaturesValid` is the answer
`tx.verifySignatures()` would give (cryptography is external to the model). -/
structure SolTransaction where
  signaturesValid : Bool
  instructions : List SolInstruction
deriving DecidableEq, Repr

/-- The `data.parsed.info` projection of `getParsedAccountInfo`: owner, mint
and decimals of a parsed SPL token account (each possibly absent). -/
structure ParsedAccount where
  owner : Option String
  mint : Option String
  decimals : Option Nat
deriving DecidableEq, Repr

/-- An associated token account returned by `getOrCreateAssociatedAccountInfo`. -/
structure TokenAccount where
  address : String
  amount : Nat
deriving DecidableEq, Repr

/-- The external world: ledger lookups, transaction deserialization, and the
per-attempt outcome of `sendRawTransaction` + `confirmTransaction` (attempt
index ↦ signature or error message).  All fields are total functions, so the
facilitator's code stays executable. -/
structure Env where
  accounts : String → Option ParsedAccount
  blockHeight : Nat
  deserializeTx : String → Except String SolTransaction
  sendAttempts : Nat → Except String String
  getOrCreateAssoc : String → Except String TokenAccount
  tokenTransfer : String → String → Option Nat → Except String String
  agentPubkey : String

/-- The nonce ledger `this.seenNonces : Map<string, number>`, as an ordered
association list nonce ↦ expiry. -/
abbrev NonceMap := List (String × Nat)

/-- Facilitator instance state: configured network id, nonce ledger, and
whether `this.agentWallet` was loaded. -/
structure FacState where
  networkId : String
  seenNonces : NonceMap
  hasAgentWallet : Bool
deriving DecidableEq, Repr

/-- `this.seenNonces.has(nonce)`. -/
def mapHas (m : NonceMap) (k : String) : Bool :=
  m.any (fun e => e.1 == k)

/-- `this.seenNonces.set(nonce, expiry)`: update in place when present, else
append. -/
def mapSet (m : NonceMap) (k : String) (v : Nat) : NonceMap :=
  if mapHas m k then m.map (fun e => if e.1 == k then (k, v) else e)
  else m ++ [(k, v)]

/-- `cleanupNonces()` (source lines 287-294): delete every entry whose
`expiry <= now`. -/
def cleanupNonces (m : NonceMap) (now : Nat) : NonceMap :=
  m.filter (fun e => decide (now < e.2))

/-- The nonce-ledger step of `validatePaymentLocally` (source lines 118-124):
sweep expired entries, refuse a nonce still present, otherwise record it with
the authorization's `validBefore` as expiry. -/
def registerNonce (m : NonceMap) (now : Nat) (nonce : String) (expiry : Nat) :
    Bool × NonceMap :=
  let cleaned := cleanupNonces m now
  if mapHas cleaned nonce then (false, cleaned)
  else (true, mapSet cleaned nonce expiry)

/-- The SPL token program id, `TOKEN_PROGRAM_ID`. -/
def TOKEN_PROGRAM_ID : String := "TokenkegQfeZyiNwAJbNbGKPFXCWuBvf9Ss623VQ5DA"

/-- `readU64` (source lines 357-359): `buffer.readBigUInt64LE(0)` — the first
eight bytes interpreted as an unsigned little-endian integer. -/
def readU64 (bytes : List Nat) : Nat :=
  (bytes.take 8).foldr (fun b acc => acc * 256 + b) 0

/-- `validateMintDecimals` (source lines 274-285).  `new PublicKey(undefined)`
throws before the lookup, modelled by the `none` branch; a found account whose
parsed decimals are not exactly 6 throws. -/
def validateMintDecimals (env : Env) (mintAddress : Option String) :
    Except String Unit :=
  match mintAddress with
  | none => Except.error "Invalid public key input"
  | some addr =>
    match env.accounts addr with
    | none => Except.error "Mint account not found"
    | some acct =>
      if acct.decimals ≠ some 6 then
        Except.error "Unexpected mint decimals (expected 6 for USDC)"
      else Except.ok ()

/-- Guard of source line 107: `requirements.maxTimeoutSeconds &&
authorization.validBefore - now > requirements.maxTimeoutSeconds + 30`
(a missing or zero `maxTimeoutSeconds` is falsy and skips the check; at this
point `now ≤ validBefore`, so the JS subtraction is the Nat one). -/
def windowExceeded (maxTimeoutSeconds : Option Nat) (validBefore now : Nat) : Bool :=
  match maxTimeoutSeconds with
  | none => false
  | some mts => mts ≠ 0 && decide (validBefore - now > mts + 30)

/-- Guard of source lines 128-134: a truthy
`payload.transactionMeta.lastValidBlockHeight` already exceeded by the current
ledger height. -/
def blockhashExpired (env : Env) (p : PaymentPayload) : Bool :=
  match (p.payload.bind InnerPayload.transactionMeta).bind
      TransactionMeta.lastValidBlockHeight with
  | none => false
  | some h => h ≠ 0 && decide (env.blockHeight > h)

/-- `validateSignedTransaction` (source lines 296-355): instruction-level
validation of the attached pre-signed transaction. -/
def validateSignedTransaction (env : Env) (p : PaymentPayload) : ValidationResult :=
  let authorization := p.payload.bind InnerPayload.authorization
  match p.payload.bind InnerPayload.signedTransaction with
  | none => ⟨true, none⟩
  | some b64 =>
    if b64 = "" then ⟨true, none⟩
    else
      match authorization with
      | none => ⟨false, some "Missing authorization block"⟩
      | some auth =>
        match env.deserializeTx b64 with
        | Except.error e => ⟨false, some e⟩
        | Except.ok tx =>
          if !tx.signaturesValid then ⟨false, some "Invalid transaction signature"⟩
          else
            match tx.instructions.find? (fun ix => ix.programId == TOKEN_PROGRAM_ID) with
            | none => ⟨false, some "Missing token transfer instruction"⟩
            | some instruction =>
              if instruction.data.length < 9 ∨ instruction.data.headD 0 ≠ 3 then
                ⟨false, some "Invalid transfer instruction data"⟩
              else
                let amount := readU64 ((instruction.data.drop 1).take 8)
                if auth.value ≠ some (Nat.repr amount) then
                  ⟨false, some "Transfer amount mismatch"⟩
                else
                  match instruction.keys.get? 1 with
                  | none => ⟨false, some "Missing destination account"⟩
                  | some destination =>
                    match env.accounts destination with
                    | none => ⟨false, some "Destination account not found"⟩
                    | some acct =>
                      if acct.owner ≠ auth.toAddr then
                        ⟨false, some "Destination owner mismatch"⟩
                      else if acct.mint ≠ auth.asset then
                        ⟨false, some "Destination mint mismatch"⟩
                      else ⟨true, none⟩

/-- The checks of `validatePaymentLocally` that run after the nonce has been
registered (source lines 126-144): mint decimals (a thrown error is caught by
the enclosing try and becomes the failure reason), blockhash expiry, and — when
a pre-signed transaction is attached — instruction-level validation.  None of
them touch the nonce ledger. -/
def postRegisterChecks (env : Env) (p : PaymentPayload) (a : Authorization) :
    ValidationResult :=
  match validateMintDecimals env a.asset with
  | Except.error e => ⟨false, some e⟩
  | Except.ok _ =>
    if blockhashExpired env p then ⟨false, some "Blockhash expired"⟩
    else
      match p.payload.bind InnerPayload.signedTransaction with
      | some stx =>
        if stx ≠ "" then
          let txv := validateSignedTransaction env p
          if txv.isValid then ⟨true, none⟩ else txv
        else ⟨true, none⟩
      | none => ⟨true, none⟩

/-- `validatePaymentLocally` (source lines 63-149), with the new nonce ledger
returned alongside the result.  The checks appear in source order; `Payment
expired` fires when `validBefore` is falsy (missing or 0) or `now >
validBefore`; the nonce is registered before any of the post-registration
checks run. -/
def validatePaymentLocally (env : Env) (st : FacState) (now : Nat)
    (p : PaymentPayload) (requirements : Requirements) :
    ValidationResult × NonceMap :=
  if p.x402Version ≠ some 1 then (⟨false, some "Invalid x402 version"⟩, st.seenNonces)
  else if p.scheme ≠ requirements.scheme then (⟨false, some "Scheme mismatch"⟩, st.seenNonces)
  else if p.network ≠ some st.networkId then (⟨false, some "Network mismatch"⟩, st.seenNonces)
  else
    match p.payload.bind InnerPayload.authorization with
    | none => (⟨false, some "No authorization found"⟩, st.seenNonces)
    | some a =>
      if a.value ≠ requirements.maxAmountRequired then (⟨false, some "Amount mismatch"⟩, st.seenNonces)
      else if a.toAddr ≠ requirements.payTo then (⟨false, some "Recipient mismatch"⟩, st.seenNonces)
      else if a.asset ≠ requirements.asset then (⟨false, some "Asset mismatch"⟩, st.seenNonces)
      else
        match a.validBefore with
        | none => (⟨false, some "Payment expired"⟩, st.seenNonces)
        | some validBefore =>
          if validBefore = 0 then (⟨false, some "Payment expired"⟩, st.seenNonces)
          else if now > validBefore then (⟨false, some "Payment expired"⟩, st.seenNonces)
          else if windowExceeded requirements.maxTimeoutSeconds validBefore now then
            (⟨false, some "Invalid validity window"⟩, st.seenNonces)
          else
            match a.nonce with
            | none => (⟨false, some "Missing nonce"⟩, st.seenNonces)
            | some nonce =>
              if nonce = "" then (⟨false, some "Missing nonce"⟩, st.seenNonces)
              else
                let r := registerNonce st.seenNonces now nonce validBefore
                if r.1 then (postRegisterChecks env p a, r.2)
                else (⟨false, some "Replay detected"⟩, r.2)

/-- JS `a || b` on the reason string of a validation result: a missing or empty
reason falls back to the default. -/
def jsOr (a : Option String) (b : String) : String :=
  match a with
  | none => b
  | some s => if s = "" then b else s

/-- `verify` (source lines 39-61), starting from the decoded payload (the
claims quantify over payloads whose header decodes). -/
def verify (env : Env) (st : FacState) (now : Nat) (p : PaymentPayload)
    (requirements : Requirements) : VerifyResult × NonceMap :=
  let v := validatePaymentLocally env st now p requirements
  if v.1.isValid then ({ isValid := true, invalidReason := none }, v.2)
  else ({ isValid := false, invalidReason := some (jsOr v.1.reason "Local validation failed") }, v.2)

/-- The backoff table of `sendTransactionWithRetry` (source line 363). -/
def backoffMs : List Nat := [500, 1000, 1500]

/-- The retry loop of `sendTransactionWithRetry` (source lines 361-396), with
`fuel = maxAttempts - attempt` as the structural decrease.  Each attempt's
combined `sendRawTransaction` + `confirmTransaction` outcome comes from
`env.sendAttempts`; the second component collects the backoff sleeps actually
performed (`backoffMs[attempt]` after a failed attempt other than the last).
When the fuel is exhausted the loop throws, naming the last caught error. -/
def sendLoop (env : Env) (maxAttempts : Nat) :
    Nat → Nat → String → Except String String × List Nat
  | _, 0, lastError =>
    (Except.error ("Failed to send transaction after retries: " ++ lastError), [])
  | attempt, fuel + 1, _ =>
    match env.sendAttempts attempt with
    | Except.ok sig => (Except.ok sig, [])
    | Except.error e =>
      let rest := sendLoop env maxAttempts (attempt + 1) fuel e
      if attempt < maxAttempts - 1 then (rest.1, backoffMs.getD attempt 0 :: rest.2)
      else (rest.1, rest.2)

/-- `sendTransactionWithRetry` (source lines 361-396): `maxAttempts = 3`,
initial `lastError` undefined (only reachable with zero attempts). -/
def sendTransactionWithRetry (env : Env) : Except String String × List Nat :=
  sendLoop env 3 0 3 "undefined"

/-- JS `Number(...)` on a possibly-missing amount string, as used on
`authorization.value` in the legacy path; a missing or non-numeric value is
NaN, modelled as `none`. -/
def jsNumber (s : Option String) : Option Nat :=
  s.bind String.toNat?

/-- The legacy branch of `executeUSDCTransfer` (source lines 221-266): the
facilitator needs its own wallet, resolves both associated token accounts,
checks the payer balance, and submits a transfer it signs itself.  Every thrown
error is caught by the enclosing try and becomes `null`.  A NaN amount makes
the JS balance comparison false, so the transfer is attempted with it. -/
def legacyTransfer (env : Env) (st : FacState) (a : Authorization) : Option String :=
  if !st.hasAgentWallet then none
  else
    match a.toAddr with
    | none => none
    | some recipient =>
      let amount := jsNumber a.value
      match env.getOrCreateAssoc env.agentPubkey with
      | Except.error _ => none
      | Except.ok fromAcct =>
        match env.getOrCreateAssoc recipient with
        | Except.error _ => none
        | Except.ok toAcct =>
          if (match amount with
              | some amt => decide (fromAcct.amount < amt)
              | none => false) then none
          else
            match env.tokenTransfer fromAcct.address toAcct.address amount with
            | Except.ok sig => some sig
            | Except.error _ => none

/-- `executeUSDCTransfer` (source lines 190-272): requires the authorization
block, then branches on a truthy `payload.signedTransaction` — the pre-signed
path deserializes and submits it through the retry loop, the legacy fallback
builds the transfer itself.  Any caught error yields `null`. -/
def executeUSDCTransfer (env : Env) (st : FacState) (p : PaymentPayload)
    (requirements : Requirements) : Option String :=
  match p.payload.bind InnerPayload.authorization with
  | none => none
  | some a =>
    match p.payload.bind InnerPayload.signedTransaction with
    | some b64 =>
      if b64 ≠ "" then
        match env.deserializeTx b64 with
        | Except.error _ => none
        | Except.ok _ =>
          match (sendTransactionWithRetry env).1 with
          | Except.ok sig => some sig
          | Except.error _ => none
      else legacyTransfer env st a
    | none => legacyTransfer env st a

/-- `settle` (source lines 151-188), starting from the decoded payload.  The
facilitator state is threaded through unchanged: the source method never reads
or writes `this.seenNonces`. -/
def settle (env : Env) (st : FacState) (p : PaymentPayload)
    (requirements : Requirements) : SettlementResult × FacState :=
  match executeUSDCTransfer env st p requirements with
  | some txHash =>
    ({ success := true, error := none, txHash := some txHash,
       networkId := some st.networkId }, st)
  | none =>
    ({ success := false, error := some "Failed to execute transfer",
       txHash := none, networkId := none }, st)

/-! ### Concrete sample data used to evaluate the definitions -/

/-- SPL token transfer instruction data for amount 1000000: opcode 3 followed
by the little-endian u64 bytes of 1000000 = 0x0F4240. -/
def tokenTransferData : List Nat := [3, 64, 66, 15, 0, 0, 0, 0, 0]

/-- A sample deserialized transaction: valid signatures and one token-program
transfer instruction moving 1000000 units to account key 1 (`"DST"`). -/
def sampleTx : SolTransaction :=
  ⟨true, [⟨TOKEN_PROGRAM_ID, tokenTransferData, ["SRC", "DST"]⟩]⟩

/-- A sample environment: mint `"M"` has 6 decimals, `"DST"` is a token account
owned by `"P"` for mint `"M"`, the string `"TX"` deserializes to `sampleTx`,
and submission always fails. -/
def sampleEnv : Env :=
  { accounts := fun addr =>
      if addr = "M" then some ⟨some "OWN", some "M", some 6⟩
      else if addr = "DST" then some ⟨some "P", some "M", some 6⟩
      else none,
    blockHeight := 0,
    deserializeTx := fun s =>
      if s = "TX" then Except.ok sampleTx else Except.error "Invalid transaction",
    sendAttempts := fun _ => Except.error "send failed",
    getOrCreateAssoc := fun addr => Except.ok ⟨addr ++ "-ata", 0⟩,
    tokenTransfer := fun _ _ _ => Except.error "transfer failed",
    agentPubkey := "AGENT" }

/-- Like `sampleEnv` but mint `"M"` has 5 decimals, so the mint-decimal check
fails. -/
def env9 : Env :=
  { sampleEnv with accounts := fun addr =>
      if addr = "M" then some ⟨some "OWN", some "M", some 5⟩ else none }

/-- Like `sampleEnv`, every submission attempt fails with a distinct error. -/
def envA : Env :=
  { sampleEnv with sendAttempts := fun k => Except.error ("errA" ++ Nat.repr k) }

/-- Like `envA` with a different family of submission errors. -/
def envB : Env :=
  { sampleEnv with sendAttempts := fun k => Except.error ("errB" ++ Nat.repr k) }

/-- A fully self-consistent authorization: pay 1000000 of mint `"M"` to `"P"`,
valid before time 1000, nonce `"n1"`. -/
def authOk : Authorization :=
  ⟨some "ALICE", some "P", some "1000000", some "M", some 1000, some "n1"⟩

/-- A payload carrying `authOk` with no attached transaction. -/
def payloadOk : PaymentPayload :=
  ⟨some 1, some "exact", some "solana-devnet", some ⟨some authOk, none, none⟩⟩

/-- Requirements matching `authOk` on the facilitator's configured network. -/
def reqsOk : Requirements :=
  ⟨some "exact", some "solana-devnet", some "1000000", some "P", some "M", none⟩

/-- A fresh facilitator on `solana-devnet` with an empty nonce ledger. -/
def stOk : FacState := ⟨"solana-devnet", [], false⟩

/-- `payloadOk` with protocol version 2. -/
def payloadV2 : PaymentPayload := { payloadOk with x402Version := some 2 }

/-- `payloadOk` declaring a network different from the facilitator's. -/
def payloadWrongNet : PaymentPayload :=
  { payloadOk with network := some "solana-testnet" }

/-- Requirements naming a different network than both `payloadOk` and the
facilitator configuration. -/
def reqsNetX : Requirements := { reqsOk with network := some "solana-mainnet-beta" }

/-- `authOk` with `validBefore = 100`. -/
def authVbNow : Authorization := { authOk with validBefore := some 100 }

/-- Payload carrying `authVbNow`. -/
def payloadVbNow : PaymentPayload :=
  { payloadOk with payload := some ⟨some authVbNow, none, none⟩ }

/-- `authOk` with `validBefore = 99`. -/
def authVb99 : Authorization := { authOk with validBefore := some 99 }

/-- Payload carrying `authVb99`. -/
def payloadVb99 : PaymentPayload :=
  { payloadOk with payload := some ⟨some authVb99, none, none⟩ }

/-- Authorization claiming amount 500000 (the attached transaction moves
1000000). -/
def authAmt : Authorization := { authOk with value := some "500000" }

/-- Payload carrying `authAmt` together with the pre-signed transaction
`"TX"`. -/
def payloadIx : PaymentPayload :=
  { payloadOk with payload := some ⟨some authAmt, some "TX", none⟩ }

/-- Requirements matching `authAmt`. -/
def reqsAmt : Requirements := { reqsOk with maxAmountRequired := some "500000" }

/-- `payloadOk` together with the pre-signed transaction `"TX"`. -/
def payloadTxOk : PaymentPayload :=
  { payloadOk with payload := some ⟨some authOk, some "TX", none⟩ }

/-! ### Helper lemmas about the nonce ledger -/

lemma mapHas_false_iff (m : NonceMap) (k : String) :
    mapHas m k = false ↔ ∀ e ∈ m, e.1 ≠ k := by
  unfold mapHas
  simp [List.any_eq_false]

lemma mapHas_of_mem {m : NonceMap} {k : String} {v : Nat} (h : (k, v) ∈ m) :
    mapHas m k = true := by
  unfold mapHas
  exact List.any_eq_true.mpr ⟨(k, v), h, by simp⟩

lemma mem_mapSet (m : NonceMap) (k : String) (v : Nat) : (k, v) ∈ mapSet m k v := by
  unfold mapSet mapHas
  split
  next h =>
    obtain ⟨e, he, hk⟩ := List.any_eq_true.mp h
    refine List.mem_map.mpr ⟨e, he, ?_⟩
    simp only [hk]
    simp
  next => simp

lemma mapSet_of_not_has {m : NonceMap} {k : String} (v : Nat)
    (h : mapHas m k = false) : mapSet m k v = m ++ [(k, v)] := by
  unfold mapSet
  simp [h]

lemma mem_cleanupNonces {m : NonceMap} {now : Nat} {k : String} {v : Nat}
    (h : (k, v) ∈ m) (hv : now < v) : (k, v) ∈ cleanupNonces m now := by
  unfold cleanupNonces
  exact List.mem_filter.mpr ⟨h, by simpa using hv⟩

lemma mapHas_cleanupNonces_false {m : NonceMap} {now : Nat} {k : String}
    (h : mapHas m k = false) : mapHas (cleanupNonces m now) k = false := by
  rw [mapHas_false_iff] at h ⊢
  intro e he
  exact h e (List.mem_filter.mp he).1

lemma cleanupNonces_append (m1 m2 : NonceMap) (now : Nat) :
    cleanupNonces (m1 ++ m2) now = cleanupNonces m1 now ++ cleanupNonces m2 now := by
  unfold cleanupNonces
  exact List.filter_append _ _

lemma mapHas_append (m1 m2 : NonceMap) (k : String) :
    mapHas (m1 ++ m2) k = (mapHas m1 k || mapHas m2 k) := by
  unfold mapHas
  exact List.any_append

lemma registerNonce_true_iff (m : NonceMap) (now : Nat) (nc : String) (vb : Nat) :
    (registerNonce m now nc vb).1 = true ↔ mapHas (cleanupNonces m now) nc = false := by
  unfold registerNonce
  by_cases h : mapHas (cleanupNonces m now) nc <;> simp [h]

lemma registerNonce_map_of_true {m : NonceMap} {now : Nat} {nc : String} {vb : Nat}
    (h : (registerNonce m now nc vb).1 = true) :
    (registerNonce m now nc vb).2 = mapSet (cleanupNonces m now) nc vb := by
  unfold registerNonce at h ⊢
  by_cases hm : mapHas (cleanupNonces m now) nc <;> simp [hm] at h ⊢

lemma registerNonce_of_has {m : NonceMap} {now : Nat} {nc : String} (vb : Nat)
    (h : mapHas (cleanupNonces m now) nc = true) :
    registerNonce m now nc vb = (false, cleanupNonces m now) := by
  unfold registerNonce
  simp [h]

/-- A nonce just set with an unexpired expiry survives the sweep. -/
lemma mapHas_cleanup_mapSet {m : NonceMap} {k : String} {v now : Nat}
    (h : now < v) : mapHas (cleanupNonces (mapSet m k v) now) k = true :=
  mapHas_of_mem (mem_cleanupNonces (mem_mapSet m k v) h)

/-! ### Helper lemmas about the validator pipeline -/

/-- Both branches of `verify` pass the validator's nonce map through. -/
lemma verify_snd (env : Env) (st : FacState) (now : Nat) (p : PaymentPayload)
    (reqs : Requirements) :
    (verify env st now p reqs).2 = (validatePaymentLocally env st now p reqs).2 := by
  unfold verify
  by_cases h : (validatePaymentLocally env st now p reqs).1.isValid <;> simp [h]

/-- When every check before the nonce-ledger step passes, `validatePaymentLocally`
reduces to the nonce registration followed by the post-registration checks. -/
lemma validate_reach (env : Env) (st : FacState) (now : Nat) (p : PaymentPayload)
    (reqs : Requirements) (a : Authorization) (vb : Nat) (nc : String)
    (hv : p.x402Version = some 1)
    (hs : p.scheme = reqs.scheme)
    (hn : p.network = some st.networkId)
    (ha : p.payload.bind InnerPayload.authorization = some a)
    (hval : a.value = reqs.maxAmountRequired)
    (hto : a.toAddr = reqs.payTo)
    (hassetq : a.asset = reqs.asset)
    (hvb : a.validBefore = some vb)
    (hvb0 : vb ≠ 0)
    (hnow : ¬ now > vb)
    (hwin : windowExceeded reqs.maxTimeoutSeconds vb now = false)
    (hnc : a.nonce = some nc)
    (hne : nc ≠ "") :
    validatePaymentLocally env st now p reqs =
      (if (registerNonce st.seenNonces now nc vb).1 then
        (postRegisterChecks env p a, (registerNonce st.seenNonces now nc vb).2)
      else (⟨false, some "Replay detected"⟩, (registerNonce st.seenNonces now nc vb).2)) := by
  unfold validatePaymentLocally
  simp [ha, hvb, hnc, hv, hs, hn, hval, hto, hassetq, hvb0, hnow, hwin, hne]

/-- A successful validation implies the presented nonce was fresh and is now
recorded with the authorization's `validBefore` as its expiry. -/
lemma valid_implies_registered (env : Env) (st : FacState) (now : Nat)
    (p : PaymentPayload) (reqs : Requirements) (a : Authorization) (vb : Nat)
    (nc : String)
    (ha : p.payload.bind InnerPayload.authorization = some a)
    (hvb : a.validBefore = some vb)
    (hnc : a.nonce = some nc)
    (hok : (validatePaymentLocally env st now p reqs).1.isValid = true) :
    (validatePaymentLocally env st now p reqs).2 =
      mapSet (cleanupNonces st.seenNonces now) nc vb ∧
    mapHas (cleanupNonces st.seenNonces now) nc = false := by
  unfold validatePaymentLocally at hok ⊢
  by_cases h1 : p.x402Version ≠ some 1
  · simp [ha, hvb, hnc, h1] at hok
  by_cases h2 : p.scheme ≠ reqs.scheme
  · simp [ha, hvb, hnc, h1, h2] at hok
  by_cases h3 : p.network ≠ some st.networkId
  · simp [ha, hvb, hnc, h1, h2, h3] at hok
  by_cases h4 : a.value ≠ reqs.maxAmountRequired
  · simp [ha, hvb, hnc, h1, h2, h3, h4] at hok
  by_cases h5 : a.toAddr ≠ reqs.payTo
  · simp [ha, hvb, hnc, h1, h2, h3, h4, h5] at hok
  by_cases h6 : a.asset ≠ reqs.asset
  · simp [ha, hvb, hnc, h1, h2, h3, h4, h5, h6] at hok
  by_cases h7 : vb = 0
  · simp [ha, hvb, hnc, h1, h2, h3, h4, h5, h6, h7] at hok
  by_cases h8 : now > vb
  · simp [ha, hvb, hnc, h1, h2, h3, h4, h5, h6, h7, h8] at hok
  by_cases h9 : windowExceeded reqs.maxTimeoutSeconds vb now = true
  · simp [ha, hvb, hnc, h1, h2, h3, h4, h5, h6, h7, h8, h9] at hok
  by_cases h10 : nc = ""
  · simp [ha, hvb, hnc, h1, h2, h3, h4, h5, h6, h7, h8, h9, h10] at hok
  by_cases hr : (registerNonce st.seenNonces now nc vb).1 = true
  · have hmap := registerNonce_map_of_true hr
    have hfresh := (registerNonce_true_iff st.seenNonces now nc vb).mp hr
    simp [ha, hvb, hnc, h1, h2, h3, h4, h5, h6, h7, h8, h9, h10, hr, hmap, hfresh]
  · simp [ha, hvb, hnc, h1, h2, h3, h4, h5, h6, h7, h8, h9, h10, hr] at hok

/-- `verify` answers valid exactly when the local validation did. -/
lemma verify_isValid (env : Env) (st : FacState) (now : Nat) (p : PaymentPayload)
    (reqs : Requirements) :
    (verify env st now p reqs).1.isValid =
      (validatePaymentLocally env st now p reqs).1.isValid := by
  unfold verify
  by_cases h : (validatePaymentLocally env st now p reqs).1.isValid <;> simp [h]

/-- A local validation failure with a nonempty reason surfaces verbatim in the
`verify` result. -/
lemma verify_fst_of_reason {env : Env} {st : FacState} {now : Nat}
    {p : PaymentPayload} {reqs : Requirements} {r : String} {m : NonceMap}
    (h : validatePaymentLocally env st now p reqs = (⟨false, some r⟩, m))
    (hr : r ≠ "") :
    (verify env st now p reqs).1 = ⟨false, some r⟩ := by
  unfold verify
  rw [h]
  simp [jsOr, hr]

/-! ### Claim theorems -/

/-- C7: settle() never reads or writes the nonce ledger: for every payment
payload and requirements, the set of registered nonces observable before a
settle() call is identical to the set observable after it, on both the
pre-signed and the legacy path and regardless of whether settlement succeeds
or fails. -/
theorem c7_settle_preserves_nonce_ledger (env : Env) (st : FacState)
    (p : PaymentPayload) (reqs : Requirements) :
    (settle env st p reqs).2.seenNonces = st.seenNonces := by
  unfold settle
  split <;> rfl

/-- C10: settle()'s outcome is independent of the requirements argument — for
any fixed payment payload and fixed ledger responses, two settle() calls that
differ only in the requirements value produce identical results, because
settle() performs none of the verification checks and the pre-signed path
submits the embedded transaction as-is. -/
theorem c10_settle_requirements_independent (env : Env) (st : FacState)
    (p : PaymentPayload) (r1 r2 : Requirements) :
    settle env st p r1 = settle env st p r2 := rfl

/-- C8: for every decodable payload whose protocol version field differs from
1, verify() returns invalid with the version-mismatch reason, regardless of
the values of all other payload and requirements fields. -/
theorem c8_version_mismatch (env : Env) (st : FacState) (now : Nat)
    (p : PaymentPayload) (reqs : Requirements) (hv : p.x402Version ≠ some 1) :
    (verify env st now p reqs).1 =
      { isValid := false, invalidReason := some "Invalid x402 version" } := by
  unfold verify validatePaymentLocally
  simp [hv, jsOr]

/-- Witness for C8: a version-2 payload is rejected with the version-mismatch
reason. -/
theorem c8_witness :
    (verify sampleEnv stOk 500 payloadV2 reqsOk).1 =
      { isValid := false, invalidReason := some "Invalid x402 version" } :=
  c8_version_mismatch sampleEnv stOk 500 payloadV2 reqsOk (by decide)

/-- C6: a nonce whose recorded expiry has elapsed becomes reusable:
registering nonce n with expiry t returns true; a later registration of the
same n, performed at any time after t with a new expiry, also returns true,
while a registration before t with n already present returns false. -/
theorem c6_nonce_reuse_after_expiry (m : NonceMap) (now1 now2 now3 t t2 t3 : Nat)
    (n : String)
    (h1 : (registerNonce m now1 n t).1 = true)
    (h2 : t < now2) (h3 : now3 < t) :
    (registerNonce (registerNonce m now1 n t).2 now2 n t2).1 = true ∧
    (registerNonce (registerNonce m now1 n t).2 now3 n t3).1 = false := by
  have hfresh := (registerNonce_true_iff m now1 n t).mp h1
  have hmap := registerNonce_map_of_true h1
  have hset := mapSet_of_not_has t hfresh
  constructor
  · rw [registerNonce_true_iff, hmap, hset, cleanupNonces_append, mapHas_append]
    have hleft : mapHas (cleanupNonces (cleanupNonces m now1) now2) n = false :=
      mapHas_cleanupNonces_false hfresh
    have hright : cleanupNonces [(n, t)] now2 = [] := by
      unfold cleanupNonces
      simp [Nat.lt_asymm h2]
    rw [hleft, hright]
    simp [mapHas]
  · have hmem : (n, t) ∈ (registerNonce m now1 n t).2 := by
      rw [hmap]
      exact mem_mapSet _ _ _
    have hhas : mapHas (cleanupNonces (registerNonce m now1 n t).2 now3) n = true :=
      mapHas_of_mem (mem_cleanupNonces hmem h3)
    rw [registerNonce_of_has t3 hhas]

/-- Witness for C6: nonce `"a"` registered at time 0 with expiry 10 can be
registered again at time 11 but not at time 5. -/
theorem c6_witness :
    (registerNonce [] 0 "a" 10).1 = true ∧
    ((registerNonce (registerNonce [] 0 "a" 10).2 11 "a" 20).1 = true ∧
     (registerNonce (registerNonce [] 0 "a" 10).2 5 "a" 20).1 = false) :=
  ⟨by decide,
   c6_nonce_reuse_after_expiry [] 0 11 5 10 20 20 "a" (by decide) (by decide) (by decide)⟩

/-- Counterexample for C3: the payload's network (`solana-devnet`) differs
from the network stated in the requirements (`solana-mainnet-beta`), yet
verify() does not return NetworkMismatch — it succeeds, because the code
compares the payload network against the facilitator's own configured network
id and never consults the requirements. -/
theorem c3_counterexample :
    payloadOk.network = some "solana-devnet" ∧
    reqsNetX.network = some "solana-mainnet-beta" ∧
    (verify sampleEnv stOk 500 payloadOk reqsNetX).1 =
      { isValid := true, invalidReason := none } :=
  ⟨rfl, rfl, rfl⟩

/-- C3 (amended): verify() returns invalid with the network-mismatch reason
(once the version and scheme checks pass) exactly based on the facilitator's
configured network id: a payload network differing from the configuration is
rejected, and the requirements' network field is never consulted — changing it
never changes the result. -/
theorem c3_network_checked_against_facilitator (env : Env) (st : FacState)
    (now : Nat) (p : PaymentPayload) (reqs : Requirements) (nw : Option String)
    (hv : p.x402Version = some 1) (hs : p.scheme = reqs.scheme) :
    (p.network ≠ some st.networkId →
      (verify env st now p reqs).1 =
        { isValid := false, invalidReason := some "Network mismatch" }) ∧
    verify env st now p { reqs with network := nw } = verify env st now p reqs := by
  constructor
  · intro hn
    unfold verify validatePaymentLocally
    simp [hv, hs, hn, jsOr]
  · rfl

/-- Witness for C3 (amended): a payload naming `solana-testnet` against a
`solana-devnet` facilitator is rejected with the network-mismatch reason. -/
theorem c3_witness :
    (verify sampleEnv stOk 500 payloadWrongNet reqsOk).1 =
      { isValid := false, invalidReason := some "Network mismatch" } :=
  (c3_network_checked_against_facilitator sampleEnv stOk 500 payloadWrongNet
    reqsOk (some "X") rfl rfl).1 (by decide)

/-- Counterexample for C5: a payload whose `validBefore` equals the current
time is not rejected as expired — the code only rejects `now > validBefore`,
so here verification succeeds. -/
theorem c5_counterexample :
    (payloadVbNow.payload.bind InnerPayload.authorization).bind
        Authorization.validBefore = some 100 ∧
    (verify sampleEnv stOk 100 payloadVbNow reqsOk).1 =
      { isValid := true, invalidReason := none } :=
  ⟨rfl, rfl⟩

/-- C5 (amended): for every payload whose `validBefore` is missing, zero (JS
falsy) or strictly less than the current unix time, verify() returns invalid
with the expiry reason; a `validBefore` exactly equal to now passes the
expiry check. -/
theorem c5_expired_strict (env : Env) (st : FacState) (now : Nat)
    (p : PaymentPayload) (reqs : Requirements) (a : Authorization)
    (hv : p.x402Version = some 1) (hs : p.scheme = reqs.scheme)
    (hn : p.network = some st.networkId)
    (ha : p.payload.bind InnerPayload.authorization = some a)
    (hval : a.value = reqs.maxAmountRequired)
    (hto : a.toAddr = reqs.payTo)
    (hassetq : a.asset = reqs.asset)
    (hexp : a.validBefore = none ∨ a.validBefore = some 0 ∨
      ∃ v, a.validBefore = some v ∧ v < now) :
    (verify env st now p reqs).1 =
      { isValid := false, invalidReason := some "Payment expired" } := by
  have hval' : validatePaymentLocally env st now p reqs =
      (⟨false, some "Payment expired"⟩, st.seenNonces) := by
    unfold validatePaymentLocally
    rcases hexp with h | h | ⟨v, hveq, hlt⟩
    · simp [ha, h, hv, hs, hn, hval, hto, hassetq]
    · simp [ha, h, hv, hs, hn, hval, hto, hassetq]
    · have hgt : now > v := hlt
      by_cases hv0 : v = 0
      · simp [ha, hveq, hv0, hv, hs, hn, hval, hto, hassetq]
      · simp [ha, hveq, hv0, hgt, hv, hs, hn, hval, hto, hassetq]
  exact verify_fst_of_reason hval' (by decide)

/-- Witness for C5 (amended): `validBefore = 99` at time 100 is rejected as
expired. -/
theorem c5_witness :
    (verify sampleEnv stOk 100 payloadVb99 reqsOk).1 =
      { isValid := false, invalidReason := some "Payment expired" } :=
  c5_expired_strict sampleEnv stOk 100 payloadVb99 reqsOk authVb99
    rfl rfl rfl rfl rfl rfl rfl (Or.inr (Or.inr ⟨99, rfl, by decide⟩))

/-- C2: replay protection is an invariant of the nonce ledger: for every pair
of verify() calls presenting the same nonce where the first call succeeds, the
second call made before the nonce's recorded expiry (the first authorization's
`validBefore`) returns invalid with the replay reason, even when every other
field of the second payload is independently valid. -/
theorem c2_replay_detected
    (env1 env2 : Env) (st : FacState) (now1 now2 : Nat)
    (p1 p2 : PaymentPayload) (reqs1 reqs2 : Requirements)
    (a1 a2 : Authorization) (vb1 vb2 : Nat) (nc : String)
    (ha1 : p1.payload.bind InnerPayload.authorization = some a1)
    (hvb1 : a1.validBefore = some vb1)
    (hnc1 : a1.nonce = some nc)
    (hok : (verify env1 st now1 p1 reqs1).1.isValid = true)
    (hv2 : p2.x402Version = some 1)
    (hs2 : p2.scheme = reqs2.scheme)
    (hn2 : p2.network = some st.networkId)
    (ha2 : p2.payload.bind InnerPayload.authorization = some a2)
    (hval2 : a2.value = reqs2.maxAmountRequired)
    (hto2 : a2.toAddr = reqs2.payTo)
    (has2 : a2.asset = reqs2.asset)
    (hvb2 : a2.validBefore = some vb2)
    (hvb20 : vb2 ≠ 0)
    (hnow2 : ¬ now2 > vb2)
    (hwin2 : windowExceeded reqs2.maxTimeoutSeconds vb2 now2 = false)
    (hnc2 : a2.nonce = some nc)
    (hne : nc ≠ "")
    (hbefore : now2 < vb1) :
    (verify env2 { st with seenNonces := (verify env1 st now1 p1 reqs1).2 }
        now2 p2 reqs2).1
      = { isValid := false, invalidReason := some "Replay detected" } := by
  have hvalid : (validatePaymentLocally env1 st now1 p1 reqs1).1.isValid = true := by
    rw [← verify_isValid]
    exact hok
  have hreg := valid_implies_registered env1 st now1 p1 reqs1 a1 vb1 nc ha1 hvb1 hnc1 hvalid
  have hsnd : (verify env1 st now1 p1 reqs1).2 =
      mapSet (cleanupNonces st.seenNonces now1) nc vb1 := by
    rw [verify_snd]
    exact hreg.1
  have hhas : mapHas (cleanupNonces (verify env1 st now1 p1 reqs1).2 now2) nc = true := by
    rw [hsnd]
    exact mapHas_cleanup_mapSet hbefore
  have hrn := registerNonce_of_has vb2 hhas
  have hreach := validate_reach env2
    { st with seenNonces := (verify env1 st now1 p1 reqs1).2 } now2 p2 reqs2
    a2 vb2 nc hv2 hs2 hn2 ha2 hval2 hto2 has2 hvb2 hvb20 hnow2 hwin2 hnc2 hne
  have hval2n : validatePaymentLocally env2
      { st with seenNonces := (verify env1 st now1 p1 reqs1).2 } now2 p2 reqs2 =
      (⟨false, some "Replay detected"⟩,
        cleanupNonces (verify env1 st now1 p1 reqs1).2 now2) := by
    rw [hreach]
    simp [hrn]
  exact verify_fst_of_reason hval2n (by decide)

/-- C9: verify() registers the presented nonce before running the
mint-decimal, blockhash-expiry and instruction-level checks, so a verification
that fails one of those later checks still consumes the nonce, and an
immediate second verify() of the same payload (before the recorded expiry)
fails with the replay reason rather than repeating the original failure. -/
theorem c9_nonce_spent_before_later_checks
    (env : Env) (st : FacState) (now : Nat) (p : PaymentPayload)
    (reqs : Requirements) (a : Authorization) (vb : Nat) (nc : String)
    (hv : p.x402Version = some 1) (hs : p.scheme = reqs.scheme)
    (hn : p.network = some st.networkId)
    (ha : p.payload.bind InnerPayload.authorization = some a)
    (hval : a.value = reqs.maxAmountRequired)
    (hto : a.toAddr = reqs.payTo)
    (hassetq : a.asset = reqs.asset)
    (hvb : a.validBefore = some vb)
    (hnow : now < vb)
    (hwin : windowExceeded reqs.maxTimeoutSeconds vb now = false)
    (hnc : a.nonce = some nc)
    (hne : nc ≠ "")
    (hfresh : mapHas (cleanupNonces st.seenNonces now) nc = false) :
    (verify env st now p reqs).2 = mapSet (cleanupNonces st.seenNonces now) nc vb ∧
    ((verify env st now p reqs).1.isValid = false →
      (verify env { st with seenNonces := (verify env st now p reqs).2 }
          now p reqs).1
        = { isValid := false, invalidReason := some "Replay detected" }) := by
  have hvb0 : vb ≠ 0 := by omega
  have hnowle : ¬ now > vb := by omega
  have hreach := validate_reach env st now p reqs a vb nc hv hs hn ha hval hto
    hassetq hvb hvb0 hnowle hwin hnc hne
  have hr1 : (registerNonce st.seenNonces now nc vb).1 = true :=
    (registerNonce_true_iff st.seenNonces now nc vb).mpr hfresh
  have hmap := registerNonce_map_of_true hr1
  have hfst : (verify env st now p reqs).2 =
      mapSet (cleanupNonces st.seenNonces now) nc vb := by
    rw [verify_snd, hreach]
    simp [hr1, hmap]
  refine ⟨hfst, fun _ => ?_⟩
  have hhas : mapHas (cleanupNonces (verify env st now p reqs).2 now) nc = true := by
    rw [hfst]
    exact mapHas_cleanup_mapSet hnow
  have hrn := registerNonce_of_has vb hhas
  have hreach2 := validate_reach env
    { st with seenNonces := (verify env st now p reqs).2 } now p reqs
    a vb nc hv hs hn ha hval hto hassetq hvb hvb0 hnowle hwin hnc hne
  have hval2n : validatePaymentLocally env
      { st with seenNonces := (verify env st now p reqs).2 } now p reqs =
      (⟨false, some "Replay detected"⟩,
        cleanupNonces (verify env st now p reqs).2 now) := by
    rw [hreach2]
    simp [hrn]
  exact verify_fst_of_reason hval2n (by decide)

/-- Witness for C2: `payloadOk` verifies at time 500; replaying it at time 600
(before the recorded expiry 1000) is rejected with the replay reason. -/
theorem c2_witness :
    (verify sampleEnv
        { stOk with seenNonces := (verify sampleEnv stOk 500 payloadOk reqsOk).2 }
        600 payloadOk reqsOk).1
      = { isValid := false, invalidReason := some "Replay detected" } :=
  c2_replay_detected sampleEnv sampleEnv stOk 500 600 payloadOk payloadOk
    reqsOk reqsOk authOk authOk 1000 1000 "n1"
    rfl rfl rfl rfl rfl rfl rfl rfl rfl rfl rfl rfl (by decide) (by decide)
    rfl rfl (by decide) (by decide)

/-- Witness for C9: against `env9` (whose mint has 5 decimals) the first
verify() of `payloadOk` fails the mint-decimal check but still records nonce
`"n1"`; the immediate second verify() fails with the replay reason. -/
theorem c9_witness :
    (verify env9 stOk 500 payloadOk reqsOk).2 =
      mapSet (cleanupNonces stOk.seenNonces 500) "n1" 1000 ∧
    (verify env9
        { stOk with seenNonces := (verify env9 stOk 500 payloadOk reqsOk).2 }
        500 payloadOk reqsOk).1
      = { isValid := false, invalidReason := some "Replay detected" } := by
  have h := c9_nonce_spent_before_later_checks env9 stOk 500 payloadOk reqsOk
    authOk 1000 "n1" rfl rfl rfl rfl rfl rfl rfl rfl (by decide) rfl rfl
    (by decide) (by decide)
  exact ⟨h.1, h.2 rfl⟩

/-- C1: instruction-level validation of an attached pre-signed transaction
enforces the exact byte contract: for a payload whose transaction deserializes,
whose signatures verify and which reaches the instruction check, the
token-program instruction's data must have byte 0 equal to the transfer opcode
3 and length at least 9, with bytes 1-8 decoded as an unsigned 64-bit
little-endian amount; a violation yields the invalid-instruction-data reason,
and a decoded amount differing from the authorization's value yields the
transfer-amount-mismatch reason even though the authorization block itself is
self-consistent. -/
theorem c1_instruction_byte_contract
    (env : Env) (st : FacState) (now : Nat) (p : PaymentPayload)
    (reqs : Requirements) (a : Authorization) (vb : Nat) (nc : String)
    (b64 : String) (tx : SolTransaction) (ix : SolInstruction)
    (hv : p.x402Version = some 1) (hs : p.scheme = reqs.scheme)
    (hn : p.network = some st.networkId)
    (ha : p.payload.bind InnerPayload.authorization = some a)
    (hval : a.value = reqs.maxAmountRequired)
    (hto : a.toAddr = reqs.payTo)
    (hassetq : a.asset = reqs.asset)
    (hvb : a.validBefore = some vb)
    (hvb0 : vb ≠ 0)
    (hnow : ¬ now > vb)
    (hwin : windowExceeded reqs.maxTimeoutSeconds vb now = false)
    (hnc : a.nonce = some nc)
    (hne : nc ≠ "")
    (hfresh : mapHas (cleanupNonces st.seenNonces now) nc = false)
    (hmint : validateMintDecimals env a.asset = Except.ok ())
    (hbh : blockhashExpired env p = false)
    (hstx : p.payload.bind InnerPayload.signedTransaction = some b64)
    (hb : b64 ≠ "")
    (hdes : env.deserializeTx b64 = Except.ok tx)
    (hsig : tx.signaturesValid = true)
    (hfind : tx.instructions.find? (fun i => i.programId == TOKEN_PROGRAM_ID)
      = some ix) :
    ((ix.data.length < 9 ∨ ix.data.headD 0 ≠ 3) →
      (verify env st now p reqs).1 =
        { isValid := false, invalidReason := some "Invalid transfer instruction data" }) ∧
    (¬ ix.data.length < 9 → ix.data.headD 0 = 3 →
      a.value ≠ some (Nat.repr (readU64 ((ix.data.drop 1).take 8))) →
      (verify env st now p reqs).1 =
        { isValid := false, invalidReason := some "Transfer amount mismatch" }) := by
  have hreach := validate_reach env st now p reqs a vb nc hv hs hn ha hval hto
    hassetq hvb hvb0 hnow hwin hnc hne
  have hr1 : (registerNonce st.seenNonces now nc vb).1 = true :=
    (registerNonce_true_iff st.seenNonces now nc vb).mpr hfresh
  constructor
  · intro hbad
    have htxv : validateSignedTransaction env p =
        ⟨false, some "Invalid transfer instruction data"⟩ := by
      unfold validateSignedTransaction
      rw [hstx]
      simp [hb, ha, hdes, hsig, hfind]
      intro h9 h3
      rcases hbad with hbad | hbad
      · exact absurd hbad (by omega)
      · rw [List.headD_eq_head?] at hbad
        exact absurd h3 hbad
    have hpost : postRegisterChecks env p a =
        ⟨false, some "Invalid transfer instruction data"⟩ := by
      unfold postRegisterChecks
      rw [hmint]
      simp [hbh, hstx, hb, htxv]
    have hvalf : validatePaymentLocally env st now p reqs =
        (⟨false, some "Invalid transfer instruction data"⟩,
          (registerNonce st.seenNonces now nc vb).2) := by
      rw [hreach]
      simp [hr1, hpost]
    exact verify_fst_of_reason hvalf (by decide)
  · intro hlen hop hamt
    have htxv : validateSignedTransaction env p =
        ⟨false, some "Transfer amount mismatch"⟩ := by
      unfold validateSignedTransaction
      rw [hstx]
      rw [List.headD_eq_head?] at hop
      rw [List.drop_one ix.data] at hamt
      simp [hb, ha, hdes, hsig, hfind, hlen, hop, hamt]
    have hpost : postRegisterChecks env p a =
        ⟨false, some "Transfer amount mismatch"⟩ := by
      unfold postRegisterChecks
      rw [hmint]
      simp [hbh, hstx, hb, htxv]
    have hvalf : validatePaymentLocally env st now p reqs =
        (⟨false, some "Transfer amount mismatch"⟩,
          (registerNonce st.seenNonces now nc vb).2) := by
      rw [hreach]
      simp [hr1, hpost]
    exact verify_fst_of_reason hvalf (by decide)

/-- Witness for C1: `payloadIx` claims amount 500000 while its attached
transaction transfers 1000000, so verify() rejects with the
transfer-amount-mismatch reason. -/
theorem c1_witness :
    (verify sampleEnv stOk 500 payloadIx reqsAmt).1 =
      { isValid := false, invalidReason := some "Transfer amount mismatch" } :=
  (c1_instruction_byte_contract sampleEnv stOk 500 payloadIx reqsAmt authAmt
    1000 "n1" "TX" sampleTx ⟨TOKEN_PROGRAM_ID, tokenTransferData, ["SRC", "DST"]⟩
    rfl rfl rfl rfl rfl rfl rfl rfl (by decide) (by decide) rfl rfl (by decide)
    (by decide) rfl rfl rfl (by decide) rfl rfl rfl).2
    (by decide) (by decide) (by decide)

/-- When all three attempts fail, the retry loop sleeps 500ms and 1000ms
between attempts and throws an error naming the final attempt's failure. -/
lemma sendRetry_all_fail (env : Env) (e0 e1 e2 : String)
    (h0 : env.sendAttempts 0 = Except.error e0)
    (h1 : env.sendAttempts 1 = Except.error e1)
    (h2 : env.sendAttempts 2 = Except.error e2) :
    sendTransactionWithRetry env =
      (Except.error ("Failed to send transaction after retries: " ++ e2),
        [500, 1000]) := by
  unfold sendTransactionWithRetry
  simp [sendLoop, h0, h1, h2, backoffMs]

/-- C4 (amended): on the pre-signed settlement path, submission/confirmation is
attempted up to 3 times, sleeping 500ms after the first failed attempt and
1000ms after the second (the configured 1500ms entry is never slept, there
being no delay after the final attempt); when every attempt fails, the retry
helper throws an error naming the last underlying error, but
`executeUSDCTransfer` swallows it, and settle() returns a terminal failure
whose error field is the fixed string `Failed to execute transfer`. -/
theorem c4_retry_and_terminal_failure (env : Env) (e0 e1 e2 : String)
    (h0 : env.sendAttempts 0 = Except.error e0)
    (h1 : env.sendAttempts 1 = Except.error e1)
    (h2 : env.sendAttempts 2 = Except.error e2) :
    sendTransactionWithRetry env =
      (Except.error ("Failed to send transaction after retries: " ++ e2),
        [500, 1000]) ∧
    ∀ (st : FacState) (p : PaymentPayload) (reqs : Requirements)
      (a : Authorization) (b64 : String) (tx : SolTransaction),
      p.payload.bind InnerPayload.authorization = some a →
      p.payload.bind InnerPayload.signedTransaction = some b64 → b64 ≠ "" →
      env.deserializeTx b64 = Except.ok tx →
      settle env st p reqs =
        ({ success := false, error := some "Failed to execute transfer",
           txHash := none, networkId := none }, st) := by
  have hretry := sendRetry_all_fail env e0 e1 e2 h0 h1 h2
  refine ⟨hretry, ?_⟩
  intro st p reqs a b64 tx ha hstx hb hdes
  unfold settle executeUSDCTransfer
  rw [ha, hstx]
  simp [hb, hdes, hretry]

/-- Counterexample for C4: with every attempt failing, the terminal settle()
failure carries the fixed string `Failed to execute transfer` whatever the
final attempt's underlying error was (`errA2` and `errB2` here), so the error
field does not carry the last underlying error. -/
theorem c4_counterexample :
    (settle envA stOk payloadTxOk reqsOk).1.error = some "Failed to execute transfer" ∧
    (settle envB stOk payloadTxOk reqsOk).1.error = some "Failed to execute transfer" ∧
    envA.sendAttempts 2 = Except.error "errA2" ∧
    envB.sendAttempts 2 = Except.error "errB2" :=
  ⟨rfl, rfl, rfl, rfl⟩

/-- Witness for C4 (amended): against `envA` all three attempts fail, the
retry helper reports the final error `errA2`, and settle() returns the generic
terminal failure. -/
theorem c4_witness :
    sendTransactionWithRetry envA =
      (Except.error ("Failed to send transaction after retries: " ++ "errA2"),
        [500, 1000]) ∧
    settle envA stOk payloadTxOk reqsOk =
      ({ success := false, error := some "Failed to execute transfer",
         txHash := none, networkId := none }, stOk) := by
  have h := c4_retry_and_terminal_failure envA "errA0" "errA1" "errA2" rfl rfl rfl
  exact ⟨h.1, h.2 stOk payloadTxOk reqsOk authOk "TX" sampleTx rfl rfl (by decide) rfl⟩

end Aether
